import Mathlib

/-!
Verification of the git-webhook-lambda core against its specification.

The Python sources (codeBuildHandler.py, utils/parse_payload.py,
utils/regex_match.py) are shallowly embedded below.  Python runtime
values are modelled by `PyVal`, raised exceptions by `PyErr`, and the
handler's side effects (signature check, secret fetch, build trigger,
callback POST) are recorded in an explicit effect trace.  External
collaborators (json.loads, secrets manager, CodeBuild, requests.post,
hmac/hashlib) are passed in as function parameters, mirroring the
spec's "external collaborators with narrow interfaces".
-/

set_option maxHeartbeats 1000000

namespace GitWebhookLambda

/-- Model of a Python runtime value as produced by json.loads / os.environ:
None, bool, int, str, list, dict (string keys, insertion ordered). -/
inductive PyVal where
  | none
  | bool (b : Bool)
  | int (n : Int)
  | str (s : String)
  | list (xs : List PyVal)
  | dict (xs : List (String × PyVal))
deriving Repr

/-- Model of a raised Python exception, by kind and message. -/
inductive PyErr where
  | keyError (key : String)
  | typeError (msg : String)
  | valueError (msg : String)
  | indexError (msg : String)
  | attributeError (msg : String)
  | unboundLocalError (name : String)
  | jsonDecodeError (msg : String)
  | clientError (msg : String)
deriving Repr, DecidableEq

/-- Python truthiness (`if not x`): None, False, 0, "", [] and empty dict
are falsy, everything else truthy. -/
def pyTruthy : PyVal → Bool
  | .none => false
  | .bool b => b
  | .int n => n != 0
  | .str s => s ≠ ""
  | .list xs => !xs.isEmpty
  | .dict xs => !xs.isEmpty

/-- Python str() of an Option String: str(None) is the text "None". -/
def strOfOptStr : Option String → String
  | Option.none => "None"
  | Option.some s => s

mutual

/-- Python str() of a value (containers rendered via repr of elements). -/
def pyStr : PyVal → String
  | .none => "None"
  | .bool true => "True"
  | .bool false => "False"
  | .int n => toString n
  | .str s => s
  | .list xs => "[" ++ String.intercalate ", " (pyReprList xs) ++ "]"
  | .dict xs => "\x7b" ++ String.intercalate ", " (pyReprPairs xs) ++ "\x7d"

/-- Python repr() of a value (strings get quotes). -/
def pyRepr : PyVal → String
  | .none => "None"
  | .bool true => "True"
  | .bool false => "False"
  | .int n => toString n
  | .str s => "\x27" ++ s ++ "\x27"
  | .list xs => "[" ++ String.intercalate ", " (pyReprList xs) ++ "]"
  | .dict xs => "\x7b" ++ String.intercalate ", " (pyReprPairs xs) ++ "\x7d"

/-- Reprs of the elements of a Python list. -/
def pyReprList : List PyVal → List String
  | [] => []
  | v :: vs => pyRepr v :: pyReprList vs

/-- Reprs of the key/value pairs of a Python dict. -/
def pyReprPairs : List (String × PyVal) → List String
  | [] => []
  | (k, v) :: vs => ("\x27" ++ k ++ "\x27: " ++ pyRepr v) :: pyReprPairs vs

end

/-- Lookup of a string key in a Python dict (assoc list, first match;
dicts built by `dictSet` keep keys unique). -/
def dictLookup : List (String × PyVal) → String → Option PyVal
  | [], _ => Option.none
  | (k, v) :: rest, key => if k = key then Option.some v else dictLookup rest key

/-- Lookup in a string-valued dict such as os.environ. -/
def dictLookupStr : List (String × String) → String → Option String
  | [], _ => Option.none
  | (k, v) :: rest, key => if k = key then Option.some v else dictLookupStr rest key

/-- Python dict assignment d[k] = v: overwrite in place if the key
exists, else append (insertion order preserved). -/
def dictSet : List (String × PyVal) → String → PyVal → List (String × PyVal)
  | [], key, v => [(key, v)]
  | (k, w) :: rest, key, v =>
    if k = key then (k, v) :: rest else (k, w) :: dictSet rest key v

/-- Python dict assignment for a string-valued dict. -/
def dictSetStr : List (String × String) → String → String → List (String × String)
  | [], key, v => [(key, v)]
  | (k, w) :: rest, key, v =>
    if k = key then (k, v) :: rest else (k, w) :: dictSetStr rest key v

/-- Python str.lower() (character-wise lower-casing, as in the source's
ASCII header keys and event types). -/
def pyLower (s : String) : String :=
  String.mk (s.data.map Char.toLower)

/-- Python str.startswith(prefixStr). -/
def pyStartsWith (s pre : String) : Bool :=
  pre.data.isPrefixOf s.data

/-- Python str.split(sep) for a one-character separator: splits on every
occurrence and keeps empty pieces, so "".split(c) = [""]. -/
def splitOnChar (sep : Char) : List Char → List (List Char)
  | [] => [[]]
  | c :: cs =>
    match splitOnChar sep cs with
    | [] => [[]]
    | h :: t => if c = sep then [] :: h :: t else (c :: h) :: t

/-- Python str.split(sep) lifted to String. -/
def pySplit (s : String) (sep : Char) : List String :=
  (splitOnChar sep s.data).map (fun l => String.mk l)

/-- Python subscript v[key] with a string key: dict lookup (KeyError when
missing), TypeError on any non-dict value. -/
def pySubscriptStr (v : PyVal) (key : String) : Except PyErr PyVal :=
  match v with
  | .dict xs =>
    match dictLookup xs key with
    | Option.some w => .ok w
    | Option.none => .error (.keyError key)
  | .list _ => .error (.typeError "list indices must be integers or slices, not str")
  | .str _ => .error (.typeError "string indices must be integers")
  | _ => .error (.typeError "object is not subscriptable")

/-- Python subscript v[i] with a non-negative int index: list and string
index (IndexError out of range), KeyError on dicts, TypeError otherwise. -/
def pySubscriptNat (v : PyVal) (i : Nat) : Except PyErr PyVal :=
  match v with
  | .list xs =>
    match xs.get? i with
    | Option.some w => .ok w
    | Option.none => .error (.indexError "list index out of range")
  | .str s =>
    match s.data.get? i with
    | Option.some c => .ok (.str (String.mk [c]))
    | Option.none => .error (.indexError "string index out of range")
  | .dict _ => .error (.keyError (toString i))
  | _ => .error (.typeError "object is not subscriptable")

/-- Python re.findall of the non-greedy bracket pattern over a string:
each match starts at a literal left bracket and captures the characters
up to the nearest right bracket; scanning resumes after it.  State
`Option.some acc` means we are inside an open bracket with `acc` the
captured characters in reverse. -/
def findBracketsAux : List Char → Option (List Char) → List String
  | [], _ => []
  | c :: rest, Option.none =>
    if c = '[' then findBracketsAux rest (Option.some [])
    else findBracketsAux rest Option.none
  | c :: rest, Option.some acc =>
    if c = ']' then String.mk acc.reverse :: findBracketsAux rest Option.none
    else findBracketsAux rest (Option.some (c :: acc))

/-- All bracketed captures of a string, as in re.findall in
parse_filter_condition. -/
def findBrackets (s : String) : List String :=
  findBracketsAux s.data Option.none

/-- Embedding of parse_filter_condition (codeBuildHandler.py lines
245-256): exactly one bracket pair is required, and its content is
unpacked by split on the equals sign into exactly two parts
(Python tuple unpacking raises ValueError otherwise). -/
def parse_filter_condition (filter_condition : String) : Except PyErr (String × String) :=
  match findBrackets filter_condition with
  | [filter_key] =>
    match pySplit filter_key '=' with
    | [search_key, search_value] => .ok (search_key, search_value)
    | [_] => .error (.valueError "not enough values to unpack (expected 2, got 1)")
    | _ => .error (.valueError "too many values to unpack (expected 2)")
  | _ => .error (.typeError ("Invalid key: " ++ filter_condition))

/-- Check via Python == between a value and a string: equal only when the
value is that string (str vs non-str compares unequal without error). -/
def pyEqStr (v : PyVal) (s : String) : Bool :=
  match v with
  | .str t => t = s
  | _ => false

/-- Embedding of the filter-scan loop of get_value_from_dict
(codeBuildHandler.py lines 276-278).  The loop iterates over the
original list (the iterator is created once), but on each matching
element re-evaluates current_dictionary[current_key][index] against the
current (possibly already reassigned) cursor; there is no break. -/
def scanFilter (current_key search_key search_value : String) :
    Nat → List PyVal → PyVal → Except PyErr PyVal
  | _, [], cur => .ok cur
  | i, obj :: rest, cur => do
    let field ← pySubscriptStr obj search_key
    if pyEqStr field search_value then do
      let seq ← pySubscriptStr cur current_key
      let cur2 ← pySubscriptNat seq i
      scanFilter current_key search_key search_value (i + 1) rest cur2
    else
      scanFilter current_key search_key search_value (i + 1) rest cur

/-- Check whether a value is a Python list (isinstance(x, list)). -/
def PyVal.isList : PyVal → Bool
  | .list _ => true
  | _ => false

/-- Check whether a value is a Python dict (isinstance(x, dict)). -/
def PyVal.isDict : PyVal → Bool
  | .dict _ => true
  | _ => false

/-- Embedding of one loop iteration of get_value_from_dict
(codeBuildHandler.py lines 268-286): process one dot-separated path
segment against the current cursor. -/
def gvfdStep (json_path : String) (cur : PyVal) (key : String) : Except PyErr PyVal :=
  if key.data.contains '[' then
    -- key.split on the left bracket; element 0 (split output is never empty)
    let current_key := (pySplit key '[').headD ""
    do
      let v ← pySubscriptStr cur current_key
      if !v.isList then
        .error (.typeError ("No object of type list found in the json for the key: "
          ++ key ++ " in path: " ++ json_path))
      else do
        let (search_key, search_value) ← parse_filter_condition key
        match v with
        | .list xs => scanFilter current_key search_key search_value 0 xs cur
        | _ => .error (.typeError "unreachable: checked isList above")
  else if cur.isDict then
    match pySubscriptStr cur key with
    | .ok w => .ok w
    | .error _ =>
      .error (.typeError ("Key: " ++ key ++ " in path: " ++ json_path
        ++ " not found in the dictionary"))
  else
    .error (.typeError ("No object/value found for the key: " ++ key
      ++ " in path: " ++ json_path))

/-- Fold of gvfdStep over the remaining path segments. -/
def gvfdLoop (json_path : String) : PyVal → List String → Except PyErr PyVal
  | cur, [] => .ok cur
  | cur, key :: rest => do
    let cur2 ← gvfdStep json_path cur key
    gvfdLoop json_path cur2 rest

/-- Embedding of get_value_from_dict (codeBuildHandler.py lines 259-288,
identical to utils/parse_payload.py lines 19-48): split the path on
dots and walk the document segment by segment. -/
def get_value_from_dict (dictionary : PyVal) (json_path : String) : Except PyErr PyVal :=
  gvfdLoop json_path dictionary (pySplit json_path '.')

/-- Embedding of check_signature (codeBuildHandler.py lines 123-134),
parameterised by the HMAC-SHA256 hex-digest primitive hmacHex (the
hmac/hashlib library call's behaviour).  The signing secret is an
Option because the caller may pass None (secrets manager returning no
SecretString), on which .encode raises AttributeError. -/
def check_signature (hmacHex : String → String → String)
    (signing_secret : Option String) (signature : String) (body : String) :
    Except PyErr Bool :=
  match signing_secret with
  | Option.none => .error (.attributeError "NoneType object has no attribute encode")
  | Option.some secret =>
    let digest := hmacHex secret body
    let signature_hash := pySplit signature '='
    -- signature_hash[1]: IndexError when the split produced fewer than two parts
    match signature_hash.get? 1 with
    | Option.some h => .ok (h = digest)
    | Option.none => .error (.indexError "list index out of range")

/-- Word character as matched by the regex class backslash-w used in the
placeholder pattern (ASCII letters, digits, underscore). -/
def isWordChar (c : Char) : Bool :=
  c.isAlphanum || c = '_'

/-- Try to match the tail of a placeholder at a position just after one
left brace: a second left brace, one or more word characters, then two
right braces.  Returns the identifier and the remaining input. -/
def matchPlaceholder (l : List Char) : Option (String × List Char) :=
  match l with
  | c :: rest =>
    if c = '\x7b' then
      let ws := rest.takeWhile isWordChar
      match rest.dropWhile isWordChar with
      | c1 :: c2 :: tail =>
        if !ws.isEmpty && c1 = '\x7d' && c2 = '\x7d' then
          Option.some (String.mk ws, tail)
        else Option.none
      | _ => Option.none
    else Option.none
  | [] => Option.none

/-- Embedding of re.sub over the double-brace placeholder pattern with
replacement str(variables.get(identifier)) (codeBuildHandler.py lines
210, 228-229; utils/regex_match.py lines 7-10).  The scan moves left to
right; where no placeholder matches it advances one character, exactly
as the regex engine does.  The Nat argument is a structural-recursion
bound; it is consumed one per step and the input shrinks by at least
one character per step, so starting it at the input length makes the
zero case unreachable. -/
def renderAux (vars : List (String × PyVal)) : Nat → List Char → List Char
  | 0, l => l
  | _ + 1, [] => []
  | fuel + 1, c :: cs =>
    if c = '\x7b' then
      match matchPlaceholder cs with
      | Option.some (id, rest) =>
        (pyStr ((dictLookup vars id).getD PyVal.none)).data ++ renderAux vars fuel rest
      | Option.none => c :: renderAux vars fuel cs
    else c :: renderAux vars fuel cs

/-- Template rendering: re.sub of the placeholder pattern over a whole
string with the variable map. -/
def render (template : String) (vars : List (String × PyVal)) : String :=
  String.mk (renderAux vars template.data.length template.data)

/-- JSON string escaping for one character, as json.dumps does for the
characters that can appear in this system's values. -/
def jsonEscapeChar (c : Char) : String :=
  if c = '"' then "\\\""
  else if c = '\\' then "\\\\"
  else if c = '\n' then "\\n"
  else if c = '\t' then "\\t"
  else if c = '\r' then "\\r"
  else String.mk [c]

/-- JSON quoting of a string, as json.dumps does. -/
def jsonQuote (s : String) : String :=
  "\"" ++ String.join (s.data.map jsonEscapeChar) ++ "\""

mutual

/-- Embedding of json.dumps with default separators, over the value
model (all PyVal constructors are JSON-serialisable). -/
def pyJsonDumps : PyVal → String
  | .none => "null"
  | .bool true => "true"
  | .bool false => "false"
  | .int n => toString n
  | .str s => jsonQuote s
  | .list xs => "[" ++ String.intercalate ", " (pyJsonDumpsList xs) ++ "]"
  | .dict xs => "\x7b" ++ String.intercalate ", " (pyJsonDumpsPairs xs) ++ "\x7d"

/-- Dumps of the elements of a JSON array. -/
def pyJsonDumpsList : List PyVal → List String
  | [] => []
  | v :: vs => pyJsonDumps v :: pyJsonDumpsList vs

/-- Dumps of the members of a JSON object. -/
def pyJsonDumpsPairs : List (String × PyVal) → List String
  | [] => []
  | (k, v) :: vs => (jsonQuote k ++ ": " ++ pyJsonDumps v) :: pyJsonDumpsPairs vs

end

/-- The structured HTTP response returned to the webhook caller. -/
structure HttpResponse where
  statusCode : Int
  body : String
  headers : List (String × String)
deriving Repr, DecidableEq

/-- The fixed CORS headers of every response. -/
def corsHeaders : List (String × String) :=
  [("Content-Type", "application/json"),
   ("Access-Control-Allow-Origin", "*"),
   ("Access-Control-Allow-Methods", "POST, GET"),
   ("Access-Control-Allow-Headers", "Origin, X-Requested-With, Content-Type, Accept")]

/-- Embedding of prepare_response (codeBuildHandler.py lines 137-164):
falsy status or falsy detail with non-200 status raise TypeError; a 2xx
status yields a statusCode/message JSON body, anything else a
statusCode/fault body. -/
def prepare_response (status_code : Int) (detail : PyVal) : Except PyErr HttpResponse :=
  if status_code = 0 then
    .error (.typeError "response_to_api_gw() expects at least argument status_code")
  else if status_code ≠ 200 && !pyTruthy detail then
    .error (.typeError "response_to_api_gw() expects at least arguments status_code and detail")
  else
    let body : PyVal :=
      if 200 ≤ status_code && status_code < 300 then
        .dict [("statusCode", .int status_code), ("message", detail)]
      else
        .dict [("statusCode", .int status_code), ("fault", detail)]
    .ok { statusCode := status_code, body := pyJsonDumps body, headers := corsHeaders }

/-- The mandatory lambda environment variables
(codeBuildHandler.py lines 28-37). -/
def mandatory_environment_vars : List String :=
  ["CODEBUILD_PROJECT_NAME", "CODEBUILD_ENV_VARS_MAP", "CODEBUILD_URL",
   "GIT_SERVER_URL", "GIT_USERNAME_SM_ARN", "GIT_TOKEN_SM_ARN",
   "WEBHOOK_EVENT_TYPE", "VALIDATE_DIGITAL_SIGNATURE"]

/-- Loop of validate_lambda_env_vars: collect an error for every present
mandatory variable whose value is falsy (empty). -/
def validateLoop : List (String × String) → List String × Bool
  | [] => ([], true)
  | (key, val) :: rest =>
    let (errs, valid) := validateLoop rest
    if mandatory_environment_vars.contains key && val = "" then
      (("Variable: " ++ key ++ " must not be empty") :: errs, false)
    else (errs, valid)

/-- Embedding of validate_lambda_env_vars (codeBuildHandler.py lines
27-44).  Note the source only flags mandatory variables that are
present with an empty value; absent mandatory variables pass. -/
def validate_lambda_env_vars (env_vars : List (String × String)) : Bool × String :=
  let (errs, valid) := validateLoop env_vars
  (valid, String.intercalate " " errs)

/-- Observable side effects of one handler invocation, in order. -/
inductive Effect where
  | sigCheck
  | secretFetch (arn : String)
  | paramExtract
  | buildStart (project : Option String)
  | callbackInvoke
  | post (url : String)
deriving Repr, DecidableEq

/-- Computation that may raise a Python exception while appending to an
effect trace. -/
def M (α : Type) : Type := List Effect → Except PyErr α × List Effect

/-- Return a value without effects. -/
def M.pure (a : α) : M α := fun tr => (.ok a, tr)

/-- Sequence two computations, short-circuiting on a raised exception. -/
def M.bind (x : M α) (f : α → M β) : M β := fun tr =>
  match x tr with
  | (.ok a, tr2) => f a tr2
  | (.error e, tr2) => (.error e, tr2)

instance : Monad M where
  pure := M.pure
  bind := M.bind

/-- Raise a Python exception. -/
def M.throw (e : PyErr) : M α := fun tr => (.error e, tr)

/-- Record one observable effect. -/
def M.note (eff : Effect) : M Unit := fun tr => (.ok (), tr ++ [eff])

/-- Lift a pure fallible computation. -/
def M.liftE (x : Except PyErr α) : M α := fun tr => (x, tr)

/-- Python try/except Exception: run the body, on a raised exception run
the handler. -/
def M.tryCatch (x : M α) (h : PyErr → M α) : M α := fun tr =>
  match x tr with
  | (.error e, tr2) => h e tr2
  | r => r

/-- The external collaborators of the orchestrator, with narrow
interfaces: json.loads, the secrets manager (returning the optional
SecretString field), the CodeBuild start_build call, requests.post
(returning the response status code) and the HMAC-SHA256 hex digest
primitive of hmac/hashlib. -/
structure Collab where
  parseJson : String → Except PyErr PyVal
  getSecret : String → Except PyErr (Option String)
  startBuild : Option String → List (String × PyVal) → Except PyErr PyVal
  httpPost : String → PyVal → Option (String × String) → Except PyErr Int
  hmacHex : String → String → String

/-- One secrets-manager fetch: get_secret_value(...).get('SecretString'). -/
def getSecretM (C : Collab) (arn : String) : M (Option String) := do
  M.note (.secretFetch arn)
  M.liftE (C.getSecret arn)

/-- Resolution of one configured entry: get_value_from_dict(body, path);
a non-string path raises AttributeError at path.split. -/
def resolveEntry (body : PyVal) (json_path : PyVal) : Except PyErr PyVal :=
  match json_path with
  | .str p => get_value_from_dict body p
  | _ => .error (.attributeError "object has no attribute split")

/-- The resolution loop of prepare_codebuild_inputs (codeBuildHandler.py
lines 175-176): store each resolved value; the first failure aborts the
loop, and the accumulated map together with an error flag is handed
back (the surrounding except swallows the exception). -/
def cbLoop (body : PyVal) :
    List (String × PyVal) → List (String × PyVal) → List (String × PyVal) × Bool
  | acc, [] => (acc, false)
  | acc, (env_var, json_path) :: rest =>
    match resolveEntry body json_path with
    | .ok v => cbLoop body (dictSet acc env_var v) rest
    | .error _ => (acc, true)

/-- The environment pass-through merge of prepare_codebuild_inputs
(codeBuildHandler.py lines 178-180): os.environ entries whose name
starts with USERVAR_ or GIT_ are added verbatim. -/
def envPassthrough (environ : List (String × String))
    (acc : List (String × PyVal)) : List (String × PyVal) :=
  environ.foldl
    (fun a kv =>
      if pyStartsWith kv.1 "USERVAR_" || pyStartsWith kv.1 "GIT_" then
        dictSet a kv.1 (.str kv.2)
      else a)
    acc

/-- Embedding of prepare_codebuild_inputs (codeBuildHandler.py lines
167-187).  The whole body sits in one try whose except only logs, and
the function then returns whatever map was accumulated: a parse failure
of the configuration yields the empty map, a failed path lookup yields
the partial map built so far with the pass-through merge skipped. -/
def prepare_codebuild_inputs (environ : List (String × String))
    (parseJson : String → Except PyErr PyVal)
    (body : PyVal) (lambda_env_vars : List (String × String)) :
    List (String × PyVal) :=
  let parsed : Except PyErr PyVal :=
    match dictLookupStr lambda_env_vars "CODEBUILD_ENV_VARS_MAP" with
    | Option.none =>
      -- json.loads(None) raises TypeError
      .error (.typeError "the JSON object must be str, bytes or bytearray, not NoneType")
    | Option.some s => parseJson s
  match parsed with
  | .error _ => []
  | .ok d =>
    match d with
    | .dict entries =>
      match cbLoop body [] entries with
      | (acc, true) => acc
      | (acc, false) => envPassthrough environ acc
    | _ => []  -- .items() on a non-dict raises AttributeError, caught: empty map

/-- Embedding of start_codebuild_job (codeBuildHandler.py lines
190-205): call the build collaborator and extract response["build"]["id"]
(the except clause just re-raises). -/
def start_codebuild_job (C : Collab) (project_name : Option String)
    (env_vars : List (String × PyVal)) : M PyVal := do
  M.note (.buildStart project_name)
  let response ← M.liftE (C.startBuild project_name env_vars)
  let build ← M.liftE (pySubscriptStr response "build")
  M.liftE (pySubscriptStr build "id")

/-- Rendering of a URL or payload template by re.sub: the value must be
a string or re.sub raises TypeError. -/
def reSubTemplate (vars : List (String × PyVal)) (v : PyVal) : Except PyErr String :=
  match v with
  | .str s => .ok (render s vars)
  | _ => .error (.typeError "expected string or bytes-like object")

/-- Python str.rstrip(): drop trailing whitespace. -/
def pyRstrip (s : String) : String :=
  String.mk (s.data.reverse.dropWhile Char.isWhitespace).reverse

/-- Embedding of invoke_git_callback (codeBuildHandler.py lines
208-242).  A falsy callback URL is a no-op returning 200.  When the URL
is set but GIT_CALLBACK_PAYLOAD is missing, the KeyError handler (lines
218-220) references the name e, which in this function is assigned only
by the later except clause, so the reference itself raises
UnboundLocalError before any logging or re-raise.  Otherwise the URL
and payload are rendered, the payload parsed as JSON, and one POST is
issued; the inner except re-raises the same exception. -/
def invoke_git_callback (C : Collab) (merged_env_vars : List (String × PyVal))
    (auth : Option (String × String)) : M Int := do
  M.note .callbackInvoke
  let url := (dictLookup merged_env_vars "GIT_CALLBACK_URI").getD PyVal.none
  if !pyTruthy url then
    M.pure 200
  else do
    let payload ← match dictLookup merged_env_vars "GIT_CALLBACK_PAYLOAD" with
      | Option.some p => M.pure p
      | Option.none => M.throw (.unboundLocalError "e")
    let post_url ← M.liftE ((reSubTemplate merged_env_vars url).map pyRstrip)
    let rendered ← M.liftE (reSubTemplate merged_env_vars payload)
    let post_payload ← M.liftE (C.parseJson rendered)
    M.note (.post post_url)
    M.liftE (C.httpPost post_url post_payload auth)

/-- The merged-variables dict of the handler. -/
abbrev Merged := List (String × PyVal)

/-- Computation in the handler's try block: like M, but a raised
exception also carries the value of the local merged_env_vars at the
moment of the raise (Option.none while it is still unbound), which the
except block of lambda_handler consults. -/
def MC (α : Type) : Type := List Effect → Except (PyErr × Option Merged) α × List Effect

/-- Return a value without effects. -/
def MC.pure (a : α) : MC α := fun tr => (.ok a, tr)

/-- Sequence two computations, short-circuiting on a raised exception. -/
def MC.bind (x : MC α) (f : α → MC β) : MC β := fun tr =>
  match x tr with
  | (.ok a, tr2) => f a tr2
  | (.error e, tr2) => (.error e, tr2)

instance : Monad MC where
  pure := MC.pure
  bind := MC.bind

/-- Run a step at a point where merged_env_vars is not yet assigned. -/
def MC.lift0 (x : M α) : MC α := fun tr =>
  match x tr with
  | (.ok a, tr2) => (.ok a, tr2)
  | (.error e, tr2) => (.error (e, Option.none), tr2)

/-- Run a step at a point where merged_env_vars holds the given dict. -/
def MC.liftM (ctx : Merged) (x : M α) : MC α := fun tr =>
  match x tr with
  | (.ok a, tr2) => (.ok a, tr2)
  | (.error e, tr2) => (.error (e, Option.some ctx), tr2)

/-- The inbound event: the body and headers entries of the API-gateway
event dict (Option.none models an absent key, whose subscript raises
KeyError). -/
structure LambdaEvent where
  body : Option String
  headers : Option (List (String × String))

/-- Header normalisation (codeBuildHandler.py line 58): a dict
comprehension lower-casing every key (later duplicates overwrite). -/
def normalizeHeaders (hs : List (String × String)) : List (String × String) :=
  hs.foldl (fun acc kv => dictSetStr acc (pyLower kv.1) kv.2) []

/-- Python str slicing value[:7] as used for LATEST_SHORT_HASH
(codeBuildHandler.py line 103): strings and lists are sliced, anything
else raises TypeError. -/
def pySlice7 : PyVal → Except PyErr PyVal
  | .str s => .ok (.str (String.mk (s.data.take 7)))
  | .list xs => .ok (.list (xs.take 7))
  | _ => .error (.typeError "object is not subscriptable")

/-- Steps of the handler from line 86 on (after the optional signature
gate): parameter extraction, build trigger, credential fetch, merged
dict construction, first callback, final response. -/
def lambdaAfterAuth (C : Collab) (environ lambda_env_vars : List (String × String))
    (event_body : PyVal) : MC HttpResponse := do
  MC.lift0 (M.note .paramExtract)
  let env_vars := prepare_codebuild_inputs environ C.parseJson event_body lambda_env_vars
  if env_vars.isEmpty then
    MC.lift0 (M.liftE (prepare_response 500
      (.str "Unable to parse webhook payload, Please verify the env var: CODEBUILD_ENV_VARS_MAP")))
  else do
    let codebuild_id ← MC.lift0
      (start_codebuild_job C (dictLookupStr lambda_env_vars "CODEBUILD_PROJECT_NAME") env_vars)
    let git_username ← MC.lift0
      (getSecretM C (strOfOptStr (dictLookupStr lambda_env_vars "GIT_USERNAME_SM_ARN")))
    let git_token ← MC.lift0
      (getSecretM C (strOfOptStr (dictLookupStr lambda_env_vars "GIT_TOKEN_SM_ARN")))
    let auth := (strOfOptStr git_username, strOfOptStr git_token)
    -- merged_env_vars = \x7b**env_vars, **lambda_env_vars\x7d
    let m0 := lambda_env_vars.foldl (fun acc kv => dictSet acc kv.1 (.str kv.2)) env_vars
    let m1 := dictSet m0 "GIT_USERNAME" (.str (strOfOptStr git_username))
    let m2 := dictSet m1 "GIT_TOKEN" (.str (strOfOptStr git_token))
    let short ← MC.liftM m2 (M.liftE (pySlice7 ((dictLookup m2 "LATEST_COMMIT_HASH").getD (.str ""))))
    let m3 := dictSet m2 "LATEST_SHORT_HASH" short
    let m4 := dictSet m3 "CODEBUILD_STATUS" (.str "INPROGRESS")
    let m5 := dictSet m4 "CALLBACK_DESCRIPTION"
      (.str ("CodeBuild job with id: " ++ pyStr codebuild_id ++ " is submitted successfully."))
    let status ← MC.liftM m5 (invoke_git_callback C m5 (Option.some auth))
    MC.liftM m5 (M.liftE (prepare_response status
      (.str ("Codebuild stated with an id: " ++ pyStr codebuild_id))))

/-- Steps of the handler from line 71 on: event-type logging and match,
then the optional digital-signature gate. -/
def lambdaRest (C : Collab) (environ lambda_env_vars : List (String × String))
    (raw_body : String) (event_body : PyVal)
    (normalized_headers : List (String × String)) (event_type : Option PyVal) :
    MC HttpResponse := do
  -- logger.info(f"Event type: \x7bevent_type\x7d") reads the local, which is
  -- unbound when neither header convention was present
  let etv ← match event_type with
    | Option.some v => MC.pure v
    | Option.none => MC.lift0 (M.throw (.unboundLocalError "event_type"))
  let expected := strOfOptStr (dictLookupStr lambda_env_vars "WEBHOOK_EVENT_TYPE")
  if pyLower (pyStr etv) ≠ pyLower expected then
    MC.lift0 (M.liftE (prepare_response 500
      (.str ("The webhook event_type: " ++ pyStr etv
        ++ " doesn\x27t match lambda function\x27s event type: " ++ expected))))
  else
    if pyLower ((dictLookupStr lambda_env_vars "VALIDATE_DIGITAL_SIGNATURE").getD "FALSE") = "true" then do
      let git_secret ← MC.lift0
        (getSecretM C (strOfOptStr (dictLookupStr lambda_env_vars "GIT_SECRET_SM_ARN")))
      let lenv2 := dictSetStr lambda_env_vars "GIT_SECRET" (strOfOptStr git_secret)
      let sig ← MC.lift0 (M.liftE (match dictLookupStr normalized_headers "x-hub-signature" with
        | Option.some s => .ok s
        | Option.none => .error (.keyError "x-hub-signature")))
      MC.lift0 (M.note .sigCheck)
      let valid ← MC.lift0 (M.liftE (check_signature C.hmacHex git_secret sig raw_body))
      if valid = false then
        MC.lift0 (M.liftE (prepare_response 401 (.str "Signature is not valid")))
      else
        lambdaAfterAuth C environ lenv2 event_body
    else
      lambdaAfterAuth C environ lambda_env_vars event_body

/-- The try block of lambda_handler (codeBuildHandler.py lines 48-109):
config validation, body parse, header normalisation, ping
short-circuit and event-type detection, then lambdaRest. -/
def lambdaMain (C : Collab) (environ : List (String × String)) (event : LambdaEvent) :
    MC HttpResponse := do
  let vr := validate_lambda_env_vars environ
  if vr.1 = false then
    MC.lift0 (M.liftE (prepare_response 500
      (.str ("Following mandatory lambda vars not set: " ++ vr.2))))
  else do
    let raw_body ← match event.body with
      | Option.some s => MC.pure s
      | Option.none => MC.lift0 (M.throw (.keyError "body"))
    let event_body ← MC.lift0 (M.liftE (C.parseJson raw_body))
    let normalized_headers ← match event.headers with
      | Option.some hs => MC.pure (normalizeHeaders hs)
      | Option.none => MC.lift0 (M.throw (.keyError "headers"))
    match dictLookupStr normalized_headers "x-event-key" with
    | Option.some et =>
      if et = "diagnostics:ping" then
        MC.lift0 (M.liftE (prepare_response 200 (.str "Webhook configured successfully")))
      else
        lambdaRest C environ environ raw_body event_body normalized_headers
          (Option.some (.str et))
    | Option.none =>
      match dictLookupStr normalized_headers "x-github-event" with
      | Option.some ge =>
        if ge = "ping" then
          MC.lift0 (M.liftE (prepare_response 200 (.str "Webhook configured successfully")))
        else do
          let act ← MC.lift0 (M.liftE (pySubscriptStr event_body "action"))
          lambdaRest C environ environ raw_body event_body normalized_headers
            (Option.some act)
      | Option.none =>
        -- logger.error(...): event type not found; event_type stays unbound
        lambdaRest C environ environ raw_body event_body normalized_headers Option.none

/-- Python str() of an exception, as interpolated into messages. -/
def pyErrStr : PyErr → String
  | .keyError k => "\x27" ++ k ++ "\x27"
  | .typeError m => m
  | .valueError m => m
  | .indexError m => m
  | .attributeError m => m
  | .unboundLocalError n =>
    "cannot access local variable \x27" ++ n ++ "\x27 where it is not associated with a value"
  | .jsonDecodeError m => m
  | .clientError m => m

/-- The except block of lambda_handler (codeBuildHandler.py lines
111-120).  It tries to send a FAILED callback, but: merged_env_vars is
unbound whenever the fault arose before line 100, and when it is bound
the call invoke_git_callback(merged_env_vars) omits the required
positional argument auth and raises TypeError at call time — either
way the inner except catches, and on leaving it Python clears the local
name e, so line 120's prepare_response(500, e) raises
UnboundLocalError, which propagates out of the handler. -/
def lambda_except_block (e : PyErr) (merged : Option Merged) : M HttpResponse := do
  M.tryCatch
    (match merged with
     | Option.none => M.throw (.unboundLocalError "merged_env_vars")
     | Option.some m =>
       let m1 := dictSet m "CALLBACK_DESCRIPTION"
         (.str ("Build job submission has failed: " ++ pyErrStr e))
       let m2 := dictSet m1 "CODEBUILD_STATUS" (.str "FAILED")
       -- invoke_git_callback(merged_env_vars): TypeError before the function
       -- body (and hence any POST) can run; m2 is dropped with the frame
       match m2 with
       | _ => M.throw (.typeError "invoke_git_callback() missing 1 required positional argument: auth"))
    (fun _e2 => M.pure ())
  M.throw (.unboundLocalError "e")

/-- Embedding of lambda_handler (codeBuildHandler.py lines 47-120): run
the try block; on a raised exception run the except block with the
exception and the merged_env_vars binding state at the raise. -/
def lambda_handler (C : Collab) (environ : List (String × String)) (event : LambdaEvent) :
    M HttpResponse := fun tr =>
  match lambdaMain C environ event tr with
  | (.ok r, tr2) => (.ok r, tr2)
  | (.error (e, merged), tr2) => lambda_except_block e merged tr2

/-! ### Concrete fixtures for witnesses and counterexamples -/

/-- A concrete stand-in for the HMAC-SHA256 hex-digest primitive, used
to instantiate theorems at concrete inputs: it distinguishes the body
"body" from every other body. -/
def hmacFix : String → String → String :=
  fun _secret body => if body = "body" then "aabb" else "ccdd"

/-- A concrete json.loads stand-in covering the document strings used
by the concrete inputs below, failing on everything else the way
json.loads fails on malformed input. -/
def parseFixture : String → Except PyErr PyVal := fun s =>
  if s = "\x7b\x7d" then .ok (.dict [])
  else if s = "\x7b\"a\": 1\x7d" then .ok (.dict [("a", .int 1)])
  else if s = "\x7b\"V1\": \"a\"\x7d" then .ok (.dict [("V1", .str "a")])
  else if s = "\x7b\"V1\": \"a\", \"V2\": \"b\"\x7d" then
    .ok (.dict [("V1", .str "a"), ("V2", .str "b")])
  else .error (.jsonDecodeError "Expecting value: line 1 column 1 (char 0)")

/-- A concrete collaborator bundle whose calls all succeed. -/
def fixCollab : Collab :=
  { parseJson := parseFixture
  , getSecret := fun _ => .ok (Option.some "sekret")
  , startBuild := fun _ _ => .ok (.dict [("build", .dict [("id", .str "proj:42")])])
  , httpPost := fun _ _ _ => .ok 201
  , hmacHex := hmacFix }

/-- The collaborators with a failing build trigger. -/
def failingBuildCollab : Collab :=
  { fixCollab with startBuild := fun _ _ => .error (.clientError "boom") }

/-- A minimal valid environment configuration (absent mandatory
variables pass the source's validation, which only flags present-but-
empty ones). -/
def baseEnviron : List (String × String) :=
  [("WEBHOOK_EVENT_TYPE", "push"),
   ("CODEBUILD_ENV_VARS_MAP", "\x7b\"V1\": \"a\"\x7d"),
   ("CODEBUILD_PROJECT_NAME", "proj")]

/-- A push event whose body resolves the configured parameter map. -/
def pushEvent : LambdaEvent :=
  { body := Option.some "\x7b\"a\": 1\x7d"
  , headers := Option.some [("X-Event-Key", "push")] }

/-- An event whose body is not valid JSON. -/
def badBodyEvent : LambdaEvent :=
  { body := Option.some "oops"
  , headers := Option.some [("x-github-event", "ping")] }

/-- Headers carrying both conventions: a non-ping event key together
with a GitHub ping header. -/
def bothHeaders : List (String × String) :=
  [("x-event-key", "pr:open"), ("x-github-event", "ping")]

/-- The spec's predicate-selection example document. -/
def c5ExampleDoc : PyVal :=
  .dict [("list", .list [.dict [("type", .str "A"), ("v", .int 1)],
                         .dict [("type", .str "B"), ("v", .int 2)]])]

/-- A document whose filtered list has two matching elements. -/
def twoMatchDoc : PyVal :=
  .dict [("list", .list [.dict [("type", .str "B"), ("v", .int 1)],
                         .dict [("type", .str "B"), ("v", .int 2)]])]

/-! ### Lemmas about the character-level split -/

theorem splitOnChar_ne_nil (sep : Char) (l : List Char) : splitOnChar sep l ≠ [] := by
  cases l with
  | nil => simp [splitOnChar]
  | cons c cs =>
    simp only [splitOnChar]
    cases h : splitOnChar sep cs with
    | nil => simp
    | cons a b =>
      by_cases hc : c = sep <;> simp [hc]

theorem splitOnChar_no_sep (sep : Char) (l : List Char) (h : sep ∉ l) :
    splitOnChar sep l = [l] := by
  induction l with
  | nil => rfl
  | cons c cs ih =>
    have hc : c ≠ sep := fun hcc => h (hcc ▸ List.mem_cons_self c cs)
    have hcs : sep ∉ cs := fun hm => h (List.mem_cons_of_mem c hm)
    simp only [splitOnChar, ih hcs]
    simp [hc]

theorem splitOnChar_append_sep (sep : Char) (a rest : List Char) (h : sep ∉ a) :
    splitOnChar sep (a ++ sep :: rest) = a :: splitOnChar sep rest := by
  induction a with
  | nil =>
    simp only [List.nil_append, splitOnChar]
    cases hr : splitOnChar sep rest with
    | nil => exact absurd hr (splitOnChar_ne_nil sep rest)
    | cons x t => simp
  | cons c cs ih =>
    have hc : c ≠ sep := fun hcc => h (hcc ▸ List.mem_cons_self c cs)
    have hcs : sep ∉ cs := fun hm => h (List.mem_cons_of_mem c hm)
    simp only [List.cons_append, splitOnChar, List.append_eq]
    rw [ih hcs]
    simp [hc]

theorem string_mk_data (s : String) : String.mk s.data = s := rfl

theorem pySplit_wellformed (a d : String) (sep : Char)
    (ha : sep ∉ a.data) (hd : sep ∉ d.data) :
    pySplit (a ++ String.mk [sep] ++ d) sep = [a, d] := by
  unfold pySplit
  have hdata : (a ++ String.mk [sep] ++ d).data = a.data ++ sep :: d.data := by
    simp [String.data_append]
  rw [hdata, splitOnChar_append_sep sep a.data d.data ha, splitOnChar_no_sep sep d.data hd]
  simp [string_mk_data]

/-- A well-formed signature header algo ++ "=" ++ digestPart is compared
by exact string equality of the digest part against the computed
digest; the algorithm part is never inspected. -/
theorem check_signature_wellformed (H : String → String → String)
    (secret body a d : String) (ha : '=' ∉ a.data) (hd : '=' ∉ d.data) :
    check_signature H (Option.some secret) (a ++ "=" ++ d) body
      = .ok (decide (d = H secret body)) := by
  have heq : ("=" : String) = String.mk ['='] := rfl
  unfold check_signature
  rw [heq, pySplit_wellformed a d '=' ha hd]
  rfl

/-- C3: the claim says a signature header containing no equals sign
yields a verification failure (false) and never an unhandled fault; the
code instead raises IndexError at signature_hash[1]
(codeBuildHandler.py line 131), evaluated here at the failing input
secret "k", header "malformed", body "b". -/
theorem c3_no_equals_header_raises_index_error :
    check_signature hmacFix (Option.some "k") "malformed" "b"
      = .error (.indexError "list index out of range")
    ∧ check_signature hmacFix (Option.some "k") "malformed" "b"
      ≠ .ok false := by
  refine ⟨rfl, ?_⟩
  intro h
  have h2 : (Except.error (PyErr.indexError "list index out of range") : Except PyErr Bool)
      = Except.ok false := h
  exact Except.noConfusion h2

/-- C4: for a header of the form algo ++ "=" ++ digestPart the verifier
returns true exactly when the digest part equals the computed
HMAC-SHA256 hex digest of the body under the secret (case-sensitive
string equality); in particular verify("k", "sha256=" ++ hex, "body")
is true for the matching hex, and a body with a different digest makes
it false. -/
theorem c4_signature_iff_digest_match
    (H : String → String → String) (secret body a d b2 : String)
    (ha : '=' ∉ a.data) (hd : '=' ∉ d.data)
    (hdig : '=' ∉ (H "k" "body").data)
    (hne : H "k" b2 ≠ H "k" "body") :
    (check_signature H (Option.some secret) (a ++ "=" ++ d) body = .ok true
       ↔ d = H secret body)
    ∧ check_signature H (Option.some "k") ("sha256" ++ "=" ++ H "k" "body") "body" = .ok true
    ∧ check_signature H (Option.some "k") ("sha256" ++ "=" ++ H "k" "body") b2 = .ok false := by
  refine ⟨?_, ?_, ?_⟩
  · rw [check_signature_wellformed H secret body a d ha hd]
    constructor
    · intro h
      injection h with h2
      exact of_decide_eq_true h2
    · intro h
      rw [h]
      simp
  · rw [check_signature_wellformed H "k" "body" "sha256" (H "k" "body") (by decide) hdig]
    simp
  · rw [check_signature_wellformed H "k" b2 "sha256" (H "k" "body") (by decide) hdig]
    simp [decide_eq_false (Ne.symm hne)]

/-- Witness for C4 at H = hmacFix, secret "k", header parts "sha256"
and "aabb", bodies "body" and "Xody". -/
theorem c4_signature_iff_digest_match_witness :
    ('=' ∉ ("sha256" : String).data) ∧ ('=' ∉ ("aabb" : String).data)
    ∧ ('=' ∉ (hmacFix "k" "body").data) ∧ (hmacFix "k" "Xody" ≠ hmacFix "k" "body")
    ∧ ((check_signature hmacFix (Option.some "k") ("sha256" ++ "=" ++ "aabb") "body" = .ok true
          ↔ "aabb" = hmacFix "k" "body")
       ∧ check_signature hmacFix (Option.some "k") ("sha256" ++ "=" ++ hmacFix "k" "body") "body" = .ok true
       ∧ check_signature hmacFix (Option.some "k") ("sha256" ++ "=" ++ hmacFix "k" "body") "Xody" = .ok false) :=
  ⟨by decide, by decide, by decide, by decide,
   c4_signature_iff_digest_match hmacFix "k" "body" "sha256" "aabb" "Xody"
     (by decide) (by decide) (by decide) (by decide)⟩

/-- C10: verification never inspects the algorithm prefix of the
signature header: any prefix without an equals sign followed by the
correct digest is accepted, and an md5-labelled header behaves exactly
as a sha256-labelled one. -/
theorem c10_algorithm_prefix_ignored
    (H : String → String → String) (secret body p : String)
    (hp : '=' ∉ p.data) (hdig : '=' ∉ (H secret body).data) :
    check_signature H (Option.some secret) (p ++ "=" ++ H secret body) body = .ok true
    ∧ check_signature H (Option.some secret) ("md5" ++ "=" ++ H secret body) body
        = check_signature H (Option.some secret) ("sha256" ++ "=" ++ H secret body) body := by
  refine ⟨?_, ?_⟩
  · rw [check_signature_wellformed H secret body p _ hp hdig]
    simp
  · rw [check_signature_wellformed H secret body "md5" _ (by decide) hdig,
      check_signature_wellformed H secret body "sha256" _ (by decide) hdig]

/-- Witness for C10 at H = hmacFix, secret "k", body "body", prefix
"md5". -/
theorem c10_algorithm_prefix_ignored_witness :
    ('=' ∉ ("md5" : String).data) ∧ ('=' ∉ (hmacFix "k" "body").data)
    ∧ (check_signature hmacFix (Option.some "k") ("md5" ++ "=" ++ hmacFix "k" "body") "body" = .ok true
       ∧ check_signature hmacFix (Option.some "k") ("md5" ++ "=" ++ hmacFix "k" "body") "body"
           = check_signature hmacFix (Option.some "k") ("sha256" ++ "=" ++ hmacFix "k" "body") "body") :=
  ⟨by decide, by decide, c10_algorithm_prefix_ignored hmacFix "k" "body" "md5" (by decide) (by decide)⟩

/-! ### Lemmas about the template renderer -/

theorem takeWhile_all_append (p : Char → Bool) (a : List Char) (b : Char) (rest : List Char)
    (ha : ∀ c ∈ a, p c = true) (hb : p b = false) :
    (a ++ b :: rest).takeWhile p = a ∧ (a ++ b :: rest).dropWhile p = b :: rest := by
  induction a with
  | nil => simp [List.takeWhile_cons, List.dropWhile_cons, hb]
  | cons c cs ih =>
    have hc : p c = true := ha c (List.mem_cons_self c cs)
    have hcs : ∀ x ∈ cs, p x = true := fun x hx => ha x (List.mem_cons_of_mem c hx)
    have ⟨ih1, ih2⟩ := ih hcs
    simp [List.takeWhile_cons, List.dropWhile_cons, hc, ih1, ih2]

theorem matchPlaceholder_exact (id : String)
    (hid1 : id.data ≠ []) (hid2 : ∀ c ∈ id.data, isWordChar c = true) :
    matchPlaceholder ('\x7b' :: (id.data ++ ['\x7d', '\x7d'])) = Option.some (id, []) := by
  have hr : isWordChar '\x7d' = false := by decide
  have ⟨h1, h2⟩ := takeWhile_all_append isWordChar id.data '\x7d' ['\x7d'] hid2 hr
  simp only [matchPlaceholder, if_pos rfl, h1, h2]
  simp [hid1, string_mk_data]

theorem renderAux_nil (vars : List (String × PyVal)) (fuel : Nat) :
    renderAux vars fuel [] = [] := by
  cases fuel <;> rfl

theorem renderAux_placeholder (vars : List (String × PyVal)) (fuel : Nat) (id : String)
    (hid1 : id.data ≠ []) (hid2 : ∀ c ∈ id.data, isWordChar c = true) :
    renderAux vars (fuel + 1) ('\x7b' :: '\x7b' :: (id.data ++ ['\x7d', '\x7d']))
      = (pyStr ((dictLookup vars id).getD PyVal.none)).data := by
  simp only [renderAux, if_pos rfl, matchPlaceholder_exact id hid1 hid2]
  simp [renderAux_nil]

/-- C7: rendering replaces each double-brace placeholder whose
identifier consists of word characters with the stringified value bound
to it; a missing identifier renders as the literal text "None" (the
value None stringifies to "None") without failing; and on the concrete
template from the spec the renderer produces "x-None". -/
theorem c7_template_render_missing_is_none (vars : List (String × PyVal)) (id : String)
    (hid1 : id.data ≠ []) (hid2 : ∀ c ∈ id.data, isWordChar c = true) :
    render ("\x7b\x7b" ++ id ++ "\x7d\x7d") vars
      = pyStr ((dictLookup vars id).getD PyVal.none)
    ∧ (dictLookup vars id = Option.none →
        render ("\x7b\x7b" ++ id ++ "\x7d\x7d") vars = "None")
    ∧ render "\x7b\x7ba\x7d\x7d-\x7b\x7bmissing\x7d\x7d" [("a", PyVal.str "x")] = "x-None" := by
  have hdata : ("\x7b\x7b" ++ id ++ "\x7d\x7d").data
      = '\x7b' :: '\x7b' :: (id.data ++ ['\x7d', '\x7d']) := by
    simp [String.data_append]
  have hmain : render ("\x7b\x7b" ++ id ++ "\x7d\x7d") vars
      = pyStr ((dictLookup vars id).getD PyVal.none) := by
    unfold render
    rw [hdata]
    have hlen : ('\x7b' :: '\x7b' :: (id.data ++ ['\x7d', '\x7d'])).length
        = id.data.length + 3 + 1 := by
      simp [List.length_append]
    rw [hlen, renderAux_placeholder vars (id.data.length + 3) id hid1 hid2]
  refine ⟨hmain, ?_, rfl⟩
  intro hmiss
  rw [hmain, hmiss]
  rfl

/-- Witness for C7 at id = "missing" and a variable map binding only
"a". -/
theorem c7_template_render_missing_is_none_witness :
    (("missing" : String).data ≠ [] ∧ ∀ c ∈ ("missing" : String).data, isWordChar c = true)
    ∧ (render ("\x7b\x7b" ++ "missing" ++ "\x7d\x7d") [("a", PyVal.str "x")]
        = pyStr ((dictLookup [("a", PyVal.str "x")] "missing").getD PyVal.none)
       ∧ (dictLookup [("a", PyVal.str "x")] "missing" = Option.none →
           render ("\x7b\x7b" ++ "missing" ++ "\x7d\x7d") [("a", PyVal.str "x")] = "None")
       ∧ render "\x7b\x7ba\x7d\x7d-\x7b\x7bmissing\x7d\x7d" [("a", PyVal.str "x")] = "x-None") :=
  ⟨⟨by decide, by decide⟩,
   c7_template_render_missing_is_none [("a", PyVal.str "x")] "missing" (by decide) (by decide)⟩

/-! ### Monad-unfolding lemmas -/

theorem except_bind_ok (a : α) (f : α → Except ε β) : (Except.ok a >>= f) = f a := rfl

theorem except_bind_err (e : ε) (f : α → Except ε β) :
    ((Except.error e : Except ε α) >>= f) = Except.error e := rfl

theorem M_bind_eq (x : M α) (f : α → M β) : x >>= f = M.bind x f := rfl

theorem M_pure_eq (a : α) : (pure a : M α) = M.pure a := rfl

theorem MC_bind_eq (x : MC α) (f : α → MC β) : x >>= f = MC.bind x f := rfl

theorem MC_pure_eq (a : α) : (pure a : MC α) = MC.pure a := rfl

/-- C8: with no callback URL configured, dispatch performs no POST and
returns synthetic success 200; with a URL configured but no payload
template, dispatch raises (the KeyError handler itself faults on the
unbound name e) before any POST is attempted. -/
theorem c8_callback_url_payload_gate (C : Collab) (m1 m2 : Merged)
    (auth : Option (String × String)) (u : PyVal) (tr : List Effect)
    (h1 : dictLookup m1 "GIT_CALLBACK_URI" = Option.none)
    (h2a : dictLookup m2 "GIT_CALLBACK_URI" = Option.some u)
    (h2b : pyTruthy u = true)
    (h2c : dictLookup m2 "GIT_CALLBACK_PAYLOAD" = Option.none) :
    invoke_git_callback C m1 auth tr = (.ok 200, tr ++ [Effect.callbackInvoke])
    ∧ invoke_git_callback C m2 auth tr
        = (.error (.unboundLocalError "e"), tr ++ [Effect.callbackInvoke]) := by
  constructor
  · simp [invoke_git_callback, M_bind_eq, M_pure_eq, M.bind, M.note, M.pure, M.throw,
      M.liftE, h1, pyTruthy]
  · simp [invoke_git_callback, M_bind_eq, M_pure_eq, M.bind, M.note, M.pure, M.throw,
      M.liftE, h2a, h2b, h2c]

/-- Witness for C8 at the empty context and a context holding only a
truthy URL. -/
theorem c8_callback_url_payload_gate_witness :
    (dictLookup [] "GIT_CALLBACK_URI" = Option.none)
    ∧ (dictLookup [("GIT_CALLBACK_URI", PyVal.str "http://x")] "GIT_CALLBACK_URI"
        = Option.some (PyVal.str "http://x"))
    ∧ (pyTruthy (PyVal.str "http://x") = true)
    ∧ (dictLookup [("GIT_CALLBACK_URI", PyVal.str "http://x")] "GIT_CALLBACK_PAYLOAD"
        = Option.none)
    ∧ (invoke_git_callback fixCollab [] Option.none []
          = (.ok 200, [Effect.callbackInvoke])
       ∧ invoke_git_callback fixCollab [("GIT_CALLBACK_URI", PyVal.str "http://x")] Option.none []
          = (.error (.unboundLocalError "e"), [Effect.callbackInvoke])) :=
  ⟨rfl, rfl, rfl, rfl,
   c8_callback_url_payload_gate fixCollab [] [("GIT_CALLBACK_URI", PyVal.str "http://x")]
     Option.none (PyVal.str "http://x") [] rfl rfl rfl rfl⟩

/-! ### The path-resolver filter scan -/

/-- C5 counterexample: on a list with two elements matching the bracket
predicate, resolution does not select the first matching element (which
would make list[type=B].v return 1 here): after the first match moves
the cursor, the second match re-subscripts the moved cursor and raises
KeyError. -/
theorem c5_second_match_faults :
    get_value_from_dict twoMatchDoc "list[type=B].v" = .error (.keyError "list")
    ∧ get_value_from_dict twoMatchDoc "list[type=B].v" ≠ .ok (.int 1) := by
  refine ⟨rfl, ?_⟩
  intro h
  have h2 : (Except.error (PyErr.keyError "list") : Except PyErr PyVal)
      = Except.ok (.int 1) := h
  exact Except.noConfusion h2

theorem scanFilter_no_match (ck sk sv : String) (f : PyVal → PyVal) (l : List PyVal)
    (h : ∀ obj ∈ l, pySubscriptStr obj sk = .ok (f obj) ∧ pyEqStr (f obj) sv = false) :
    ∀ i cur, scanFilter ck sk sv i l cur = .ok cur := by
  induction l with
  | nil => intro i cur; rfl
  | cons o rest ih =>
    intro i cur
    have ⟨h1, h2⟩ := h o (List.mem_cons_self o rest)
    have hrest := fun x hx => h x (List.mem_cons_of_mem o hx)
    simp [scanFilter, except_bind_ok, h1, h2, ih hrest]

theorem scanFilter_unique_match (ck sk sv : String) (f : PyVal → PyVal)
    (l1 l2 : List PyVal) (m cur : PyVal) (L : List PyVal) (fm w : PyVal) (i : Nat)
    (h1 : ∀ obj ∈ l1, pySubscriptStr obj sk = .ok (f obj) ∧ pyEqStr (f obj) sv = false)
    (h2 : ∀ obj ∈ l2, pySubscriptStr obj sk = .ok (f obj) ∧ pyEqStr (f obj) sv = false)
    (hm1 : pySubscriptStr m sk = .ok fm) (hm2 : pyEqStr fm sv = true)
    (hcur : pySubscriptStr cur ck = .ok (.list L))
    (hL : L[i + l1.length]? = Option.some w) :
    scanFilter ck sk sv i (l1 ++ m :: l2) cur = .ok w := by
  induction l1 generalizing i with
  | nil =>
    simp only [List.length_nil, Nat.add_zero] at hL
    simp [scanFilter, except_bind_ok, hm1, hm2, hcur, pySubscriptNat, hL,
      scanFilter_no_match ck sk sv f l2 h2 (i + 1) w]
  | cons o os ih =>
    have ⟨ho1, ho2⟩ := h1 o (List.mem_cons_self o os)
    have hos := fun x hx => h1 x (List.mem_cons_of_mem o hx)
    have hL2 : L[(i + 1) + os.length]? = Option.some w := by
      rw [← hL]
      congr 1
      simp [List.length_cons]
      omega
    simp [scanFilter, except_bind_ok, ho1, ho2, ih (i + 1) hos hL2]

/-- C5 amended: at each matching element the scan re-subscripts the
original key and index through the current cursor, so when exactly one
element matches (and every element carries the filter key) the cursor
advances to that matching element; a later second match re-subscripts
the moved cursor and generally faults instead of keeping the first
match.  When no element matches, the cursor is left unchanged rather
than failing.  On the spec's example document, list[type=B].v resolves
to 2. -/
theorem c5_predicate_selection_amended
    (ck sk sv : String) (f : PyVal → PyVal) (l l1 l2 : List PyVal)
    (m cur cur2 : PyVal) (L : List PyVal) (fm w : PyVal) (i j : Nat)
    (hno : ∀ obj ∈ l, pySubscriptStr obj sk = .ok (f obj) ∧ pyEqStr (f obj) sv = false)
    (h1 : ∀ obj ∈ l1, pySubscriptStr obj sk = .ok (f obj) ∧ pyEqStr (f obj) sv = false)
    (h2 : ∀ obj ∈ l2, pySubscriptStr obj sk = .ok (f obj) ∧ pyEqStr (f obj) sv = false)
    (hm1 : pySubscriptStr m sk = .ok fm) (hm2 : pyEqStr fm sv = true)
    (hcur : pySubscriptStr cur ck = .ok (.list L))
    (hL : L[j + l1.length]? = Option.some w) :
    scanFilter ck sk sv i l cur2 = .ok cur2
    ∧ scanFilter ck sk sv j (l1 ++ m :: l2) cur = .ok w
    ∧ get_value_from_dict c5ExampleDoc "list[type=B].v" = .ok (.int 2) :=
  ⟨scanFilter_no_match ck sk sv f l hno i cur2,
   scanFilter_unique_match ck sk sv f l1 l2 m cur L fm w j h1 h2 hm1 hm2 hcur hL,
   rfl⟩

/-- Witness for C5 amended on the spec's example document: the list
element of type A never matches, the unique match of type B is
selected, and the example resolves to 2. -/
theorem c5_predicate_selection_amended_witness :
    (pySubscriptStr (.dict [("type", .str "A"), ("v", .int 1)]) "type" = .ok (.str "A")
     ∧ pyEqStr (.str "A") "B" = false)
    ∧ (pySubscriptStr (.dict [("type", .str "B"), ("v", .int 2)]) "type" = .ok (.str "B")
       ∧ pyEqStr (.str "B") "B" = true)
    ∧ (pySubscriptStr c5ExampleDoc "list"
        = .ok (.list [.dict [("type", .str "A"), ("v", .int 1)],
                      .dict [("type", .str "B"), ("v", .int 2)]]))
    ∧ (scanFilter "list" "type" "B" 0 [.dict [("type", .str "A"), ("v", .int 1)]] PyVal.none
        = .ok PyVal.none
       ∧ scanFilter "list" "type" "B" 0
           ([.dict [("type", .str "A"), ("v", .int 1)]]
             ++ PyVal.dict [("type", .str "B"), ("v", .int 2)] :: [])
           c5ExampleDoc
        = .ok (.dict [("type", .str "B"), ("v", .int 2)])
       ∧ get_value_from_dict c5ExampleDoc "list[type=B].v" = .ok (.int 2)) := by
  refine ⟨⟨rfl, rfl⟩, ⟨rfl, rfl⟩, rfl, ?_⟩
  exact c5_predicate_selection_amended "list" "type" "B" (fun _ => .str "A")
    [.dict [("type", .str "A"), ("v", .int 1)]]
    [.dict [("type", .str "A"), ("v", .int 1)]] []
    (.dict [("type", .str "B"), ("v", .int 2)]) c5ExampleDoc PyVal.none
    [.dict [("type", .str "A"), ("v", .int 1)], .dict [("type", .str "B"), ("v", .int 2)]]
    (.str "B") (.dict [("type", .str "B"), ("v", .int 2)]) 0 0
    (by intro obj h; rw [List.mem_singleton] at h; subst h; exact ⟨rfl, rfl⟩)
    (by intro obj h; rw [List.mem_singleton] at h; subst h; exact ⟨rfl, rfl⟩)
    (by intro obj h; exact absurd h (List.not_mem_nil obj))
    rfl rfl rfl rfl

/-! ### Parameter mapping -/

/-- C2 counterexample: with the configured map binding V1 to a
resolvable path and V2 to a failing one, the mapping operation does not
abort with an error — it returns the partial map holding only V1 (and
skips the GIT_ pass-through merge). -/
theorem c2_partial_map_returned :
    parseFixture "\x7b\"V1\": \"a\", \"V2\": \"b\"\x7d"
      = .ok (.dict [("V1", .str "a"), ("V2", .str "b")])
    ∧ resolveEntry (.dict [("a", .int 1)]) (.str "b")
        = .error (.typeError "Key: b in path: b not found in the dictionary")
    ∧ prepare_codebuild_inputs [("GIT_X", "y")] parseFixture (.dict [("a", .int 1)])
        [("CODEBUILD_ENV_VARS_MAP", "\x7b\"V1\": \"a\", \"V2\": \"b\"\x7d")]
        = [("V1", PyVal.int 1)] :=
  ⟨rfl, rfl, rfl⟩

theorem cbLoop_prefix_fail (body : PyVal) (f : String × PyVal → PyVal) (err : PyErr) :
    ∀ (pre : List (String × PyVal)) (acc : List (String × PyVal)) (k : String) (p : PyVal)
      (rest : List (String × PyVal)),
      (∀ kv ∈ pre, resolveEntry body kv.2 = .ok (f kv)) →
      resolveEntry body p = .error err →
      cbLoop body acc (pre ++ (k, p) :: rest)
        = (pre.foldl (fun a kv => dictSet a kv.1 (f kv)) acc, true) := by
  intro pre
  induction pre with
  | nil =>
    intro acc k p rest _ hfail
    simp [cbLoop, hfail]
  | cons kv pres ih =>
    intro acc k p rest hpre hfail
    have h1 := hpre kv (List.mem_cons_self kv pres)
    have h2 := fun x hx => hpre x (List.mem_cons_of_mem kv hx)
    cases kv with
    | mk k0 p0 =>
      simp only at h1
      simp only [List.cons_append, cbLoop, h1, List.foldl_cons]
      exact ih (dictSet acc k0 (f (k0, p0))) k p rest h2 hfail

/-- C2 amended: when resolution of one configured path entry fails, the
loop stops and the pass-through merge is skipped, but the map
accumulated from the entries resolved before the failure is returned as
is (the exception is only logged); the caller treats only an empty
returned map as failure. -/
theorem c2_failed_lookup_returns_partial_map
    (environ : List (String × String)) (parse : String → Except PyErr PyVal)
    (body : PyVal) (lenv : List (String × String)) (s : String)
    (pre rest : List (String × PyVal)) (k : String) (p : PyVal)
    (f : String × PyVal → PyVal) (err : PyErr)
    (hmap : dictLookupStr lenv "CODEBUILD_ENV_VARS_MAP" = Option.some s)
    (hparse : parse s = .ok (.dict (pre ++ (k, p) :: rest)))
    (hpre : ∀ kv ∈ pre, resolveEntry body kv.2 = .ok (f kv))
    (hfail : resolveEntry body p = .error err) :
    prepare_codebuild_inputs environ parse body lenv
      = pre.foldl (fun a kv => dictSet a kv.1 (f kv)) [] := by
  simp [prepare_codebuild_inputs, hmap, hparse,
    cbLoop_prefix_fail body f err pre [] k p rest hpre hfail]

/-- Witness for C2 amended on the same configuration as the
counterexample: the partial map holding only V1 is returned. -/
theorem c2_failed_lookup_returns_partial_map_witness :
    (dictLookupStr [("CODEBUILD_ENV_VARS_MAP", "\x7b\"V1\": \"a\", \"V2\": \"b\"\x7d")]
        "CODEBUILD_ENV_VARS_MAP"
      = Option.some "\x7b\"V1\": \"a\", \"V2\": \"b\"\x7d")
    ∧ (parseFixture "\x7b\"V1\": \"a\", \"V2\": \"b\"\x7d"
        = .ok (.dict ([("V1", .str "a")] ++ ("V2", PyVal.str "b") :: [])))
    ∧ (resolveEntry (.dict [("a", .int 1)]) (.str "b")
        = .error (.typeError "Key: b in path: b not found in the dictionary"))
    ∧ prepare_codebuild_inputs [("GIT_X", "y")] parseFixture (.dict [("a", .int 1)])
        [("CODEBUILD_ENV_VARS_MAP", "\x7b\"V1\": \"a\", \"V2\": \"b\"\x7d")]
        = [("V1", PyVal.str "a")].foldl
            (fun a kv => dictSet a kv.1 ((fun _ => PyVal.int 1) kv)) [] :=
  ⟨rfl, rfl, rfl,
   c2_failed_lookup_returns_partial_map [("GIT_X", "y")] parseFixture
     (.dict [("a", .int 1)])
     [("CODEBUILD_ENV_VARS_MAP", "\x7b\"V1\": \"a\", \"V2\": \"b\"\x7d")]
     "\x7b\"V1\": \"a\", \"V2\": \"b\"\x7d"
     [("V1", .str "a")] [] "V2" (.str "b") (fun _ => PyVal.int 1)
     (.typeError "Key: b in path: b not found in the dictionary")
     rfl rfl
     (by intro kv h; rw [List.mem_singleton] at h; subst h; rfl)
     rfl⟩

/-! ### Orchestrator claims -/

/-- C1: when the build trigger raises after the parameter map was
built, the claimed FAILED callback is never attempted — merged_env_vars
is assigned only after the trigger call, so the except block faults on
the unbound local, the recovery callback call (which also omits its
required auth argument) never runs, and the handler propagates
UnboundLocalError instead of returning the callback's status.  The
trace shows parameter extraction and the build trigger but no callback
invocation and no POST. -/
theorem c1_build_trigger_fault_no_callback :
    failingBuildCollab.startBuild (Option.some "proj") [("V1", PyVal.int 1)]
      = .error (.clientError "boom")
    ∧ lambda_handler failingBuildCollab baseEnviron pushEvent []
        = (.error (.unboundLocalError "e"),
           [Effect.paramExtract, Effect.buildStart (Option.some "proj")]) :=
  ⟨rfl, rfl⟩

/-- C6: the handler does not always return a structured response: any
fault reaching the catch-all (here: a body that is not valid JSON)
makes the except block itself raise UnboundLocalError, which propagates
out of the handler. -/
theorem c6_handler_raises_on_fault :
    fixCollab.parseJson "oops"
      = .error (.jsonDecodeError "Expecting value: line 1 column 1 (char 0)")
    ∧ lambda_handler fixCollab baseEnviron badBodyEvent []
        = (.error (.unboundLocalError "e"), []) :=
  ⟨rfl, rfl⟩

/-- C9 counterexample: a request whose lower-cased headers contain
x-github-event: ping is not short-circuited to 200 when an x-event-key
header is also present — the event key takes precedence and the
mismatching event type produces a 500 response. -/
theorem c9_ping_header_not_shortcircuited :
    dictLookupStr (normalizeHeaders bothHeaders) "x-github-event" = Option.some "ping"
    ∧ (lambda_handler fixCollab baseEnviron
          { body := Option.some "\x7b\x7d", headers := Option.some bothHeaders } []).1.map
        (fun r => r.statusCode)
      = Except.ok 500 :=
  ⟨rfl, rfl⟩

theorem lambdaMain_ping (C : Collab) (environ : List (String × String))
    (hs : List (String × String)) (b : String) (j : PyVal)
    (hvalid : (validate_lambda_env_vars environ).1 = true)
    (hparse : C.parseJson b = .ok j)
    (hping : dictLookupStr (normalizeHeaders hs) "x-event-key"
          = Option.some "diagnostics:ping"
        ∨ (dictLookupStr (normalizeHeaders hs) "x-event-key" = Option.none
           ∧ dictLookupStr (normalizeHeaders hs) "x-github-event" = Option.some "ping")) :
    lambdaMain C environ { body := Option.some b, headers := Option.some hs } []
      = (Except.ok
          { statusCode := 200
          , body := pyJsonDumps (.dict [("statusCode", .int 200),
              ("message", .str "Webhook configured successfully")])
          , headers := corsHeaders }, []) := by
  rcases hping with hkey | ⟨hkey, hgh⟩
  · simp [lambdaMain, MC_bind_eq, MC_pure_eq, MC.bind, MC.pure, MC.lift0, M.liftE,
      M.throw, hvalid, hparse, hkey, prepare_response]
  · simp [lambdaMain, MC_bind_eq, MC_pure_eq, MC.bind, MC.pure, MC.lift0, M.liftE,
      M.throw, hvalid, hparse, hkey, hgh, prepare_response]

/-- C9 amended: a request whose lower-cased headers carry
x-event-key: diagnostics:ping, or carry x-github-event: ping with no
x-event-key header at all, is answered 200 provided the body parses as
JSON (the parse happens before the ping check), with no signature
check, parameter extraction, build trigger, callback or secret fetch
performed (the effect trace stays empty). -/
theorem c9_ping_shortcircuit_amended (C : Collab) (environ : List (String × String))
    (hs : List (String × String)) (b : String) (j : PyVal)
    (hvalid : (validate_lambda_env_vars environ).1 = true)
    (hparse : C.parseJson b = .ok j)
    (hping : dictLookupStr (normalizeHeaders hs) "x-event-key"
          = Option.some "diagnostics:ping"
        ∨ (dictLookupStr (normalizeHeaders hs) "x-event-key" = Option.none
           ∧ dictLookupStr (normalizeHeaders hs) "x-github-event" = Option.some "ping")) :
    (lambda_handler C environ { body := Option.some b, headers := Option.some hs } []).1.map
        (fun r => r.statusCode) = Except.ok 200
    ∧ (lambda_handler C environ { body := Option.some b, headers := Option.some hs } []).2
        = [] := by
  have h := lambdaMain_ping C environ hs b j hvalid hparse hping
  simp [lambda_handler, h, Except.map]

/-- Witness for C9 amended at the base environment, a lone GitHub ping
header and an empty JSON body. -/
theorem c9_ping_shortcircuit_amended_witness :
    ((validate_lambda_env_vars baseEnviron).1 = true)
    ∧ (fixCollab.parseJson "\x7b\x7d" = .ok (.dict []))
    ∧ (dictLookupStr (normalizeHeaders [("x-github-event", "ping")]) "x-event-key"
        = Option.none
       ∧ dictLookupStr (normalizeHeaders [("x-github-event", "ping")]) "x-github-event"
        = Option.some "ping")
    ∧ ((lambda_handler fixCollab baseEnviron
          { body := Option.some "\x7b\x7d",
            headers := Option.some [("x-github-event", "ping")] } []).1.map
            (fun r => r.statusCode) = Except.ok 200
       ∧ (lambda_handler fixCollab baseEnviron
          { body := Option.some "\x7b\x7d",
            headers := Option.some [("x-github-event", "ping")] } []).2 = []) :=
  ⟨rfl, rfl, ⟨rfl, rfl⟩,
   c9_ping_shortcircuit_amended fixCollab baseEnviron [("x-github-event", "ping")]
     "\x7b\x7d" (.dict []) rfl rfl (Or.inr ⟨rfl, rfl⟩)⟩

end GitWebhookLambda
